import Mathlib

set_option autoImplicit false

namespace SimAlly

/-- A session record stored in the `active_conversations` mapping: the
`conversation_id` parsed from the provider response body (optional, because
`dict.get` yields `None` when the field is absent) and the
`datetime.now().isoformat()` creation timestamp. -/
structure SessionRecord where
  conversation_id : Option String
  created_at : String
deriving DecidableEq

/-- The process-wide mapping `active_conversations : Dict[str, Dict]`,
modelled as an association list from user id to session record. -/
abbrev SessionMap := List (String × SessionRecord)

/-- Python dict lookup, combining `k in m` (`isSome`) and `m[k]`. -/
def mapLookup (m : SessionMap) (k : String) : Option SessionRecord :=
  match m with
  | [] => none
  | (k2, v) :: rest => if k2 = k then some v else mapLookup rest k

/-- Python dict assignment `m[k] = v`: replace the entry in place when the
key is already present, otherwise append a new entry. -/
def mapInsert (m : SessionMap) (k : String) (v : SessionRecord) : SessionMap :=
  match m with
  | [] => [(k, v)]
  | (k2, v2) :: rest =>
      if k2 = k then (k, v) :: rest else (k2, v2) :: mapInsert rest k v

/-- Python `del m[k]`: remove the entry with key `k`. -/
def mapErase (m : SessionMap) (k : String) : SessionMap :=
  match m with
  | [] => []
  | (k2, v2) :: rest => if k2 = k then rest else (k2, v2) :: mapErase rest k

/-- The response of one outbound `requests` call: HTTP status code, the two
body fields the relay ever parses, and the raw body text. -/
structure ProviderResponse where
  status_code : Nat
  conversation_id : Option String
  conversation_url : Option String
  text : String
deriving DecidableEq

/-- The outbound calls the relay can issue against the provider API:
`POST /v2/conversations`, `POST /v2/conversations/{id}/end` and
`DELETE /v2/conversations/{id}`. -/
inductive ProviderCall where
  | createConv
  | endConv (conversation_id : String)
  | deleteConv (conversation_id : String)
deriving DecidableEq

/-- The provider as an oracle: each attempted call either raises a
transport-level exception (`Except.error` carrying the message of the
`requests.RequestException`) or returns an HTTP response of any status. -/
abbrev Provider := ProviderCall → Except String ProviderResponse

/-- The `ConversationResponse` pydantic model returned by the create
endpoint. -/
structure ConversationResponse where
  success : Bool
  conversation_id : Option String
  conversation_url : Option String
  user_id : Option String
  error : Option String
  details : Option String
deriving DecidableEq

/-- The JSON detail dict attached to a raised `HTTPException`. -/
structure ErrorDetail where
  success : Bool
  error : String
  details : Option String
deriving DecidableEq

/-- The create endpoint either answers 200 with a `ConversationResponse`
body or raises an `HTTPException` with a status code and a detail dict. -/
inductive CreateOutcome where
  | ok (resp : ConversationResponse)
  | httpError (status : Nat) (detail : ErrorDetail)
deriving DecidableEq

/-- The end endpoint either answers with a success message or raises an
`HTTPException`. -/
inductive EndOutcome where
  | ok (message : String)
  | httpError (status : Nat) (detail : ErrorDetail)
deriving DecidableEq

/-- Lower-case hexadecimal digit, as produced by Python `'%x'` formatting. -/
def hexDigit (n : Nat) : Char :=
  if n < 10 then Char.ofNat (48 + n) else Char.ofNat (87 + n)

/-- Fixed-width big-endian hexadecimal rendering, as in `'%032x' % n`. -/
def toHex : Nat → Nat → List Char
  | _, 0 => []
  | n, w + 1 => toHex (n / 16) w ++ [hexDigit (n % 16)]

/-- The 128-bit integer underlying `uuid.uuid4()`: sixteen random bytes with
the variant bits forced to `10` and the version nibble forced to `4`, as
CPython does in `UUID(bytes=os.urandom(16), version=4)`. `r` models the
random draw. -/
def uuid4Int (r : Nat) : Nat :=
  let i0 := r % 2 ^ 128
  let i1 := Nat.lor (Nat.land i0 (2 ^ 128 - 1 - (0xc000 <<< 48))) (0x8000 <<< 48)
  let i2 := Nat.lor (Nat.land i1 (2 ^ 128 - 1 - (0xf000 <<< 64))) (0x4000 <<< 64)
  i2 % 2 ^ 128

/-- `str(uuid.uuid4())`: the 32 hex digits of the uuid integer, grouped
8-4-4-4-12 with hyphens. -/
def uuid4String (r : Nat) : String :=
  let s := toHex (uuid4Int r) 32
  String.mk (s.take 8 ++ '-' ::
    ((s.drop 8).take 4 ++ '-' ::
      ((s.drop 12).take 4 ++ '-' ::
        ((s.drop 16).take 4 ++ '-' :: s.drop 20))))

/-- `user_id = request.user_id or str(uuid.uuid4())`: Python `or` treats
both `None` and the empty string as falsy, so each of them makes the relay
generate a fresh identifier. -/
def resolveUserId (uid : Option String) (r : Nat) : String :=
  match uid with
  | none => uuid4String r
  | some s => if s = "" then uuid4String r else s

/-- The single-quote character (written by code point to keep the
character literals simple). -/
def squote : Char := Char.ofNat 39

/-- Two lower-case hex digits, as in the `\xhh` escapes of Python repr. -/
def hexDigit2 (n : Nat) : String :=
  String.mk [hexDigit ((n / 16) % 16), hexDigit (n % 16)]

/-- Quote character chosen by Python `repr` for a string: single quotes,
unless the string contains a single quote and no double quote. -/
def pyReprQuote (s : String) : Char :=
  if s.data.contains squote && !(s.data.contains '"') then '"' else squote

/-- Python `repr` rendering of one character inside the quoted string:
backslash and the active quote are backslash-escaped; tab, newline and
carriage return use their short escapes; the other ASCII control
characters and DEL use `\xhh`; everything else is kept. -/
def pyReprChar (quote : Char) (c : Char) : String :=
  if c = '\\' then "\\\\"
  else if c = quote then String.mk ['\\', quote]
  else if c = '\t' then "\\t"
  else if c = '\n' then "\\n"
  else if c = '\r' then "\\r"
  else if c.toNat < 32 ∨ c.toNat = 127 then "\\x" ++ hexDigit2 c.toNat
  else String.mk [c]

/-- Python `repr` of a string (exact for ASCII payloads; code points above
ASCII are kept verbatim, as repr does for printable characters). -/
def pyReprStr (s : String) : String :=
  let q := pyReprQuote s
  String.mk [q] ++ String.join (s.data.map (pyReprChar q)) ++ String.mk [q]

/-- `str(e)` for the `HTTPException(500, detail)` raised on a non-200
provider status, as observed by the handler's own generic
`except Exception` clause: `create_riddle_conversation` has no
`except HTTPException: raise`, so the inner exception is re-caught there.
Starlette's `HTTPException.__str__` renders `f"{status_code}: {detail}"`,
and `str` of the detail dict renders the dict repr, which embeds the raw
provider response body through Python repr of a string. -/
def strOfCreateFailException (text : String) : String :=
  "500: \x7b'success': False, 'error': 'Failed to create conversation', 'details': " ++
    pyReprStr text ++ "\x7d"

/-- Everything one call to the create endpoint produces: the mapping
afterwards, the outbound calls attempted (in order), and the HTTP-level
outcome. -/
structure CreateResult where
  state : SessionMap
  calls : List ProviderCall
  outcome : CreateOutcome
deriving DecidableEq

/-- Everything one call to the end endpoint produces. -/
structure EndResult where
  state : SessionMap
  calls : List ProviderCall
  outcome : EndOutcome
deriving DecidableEq

/-- Handler of `POST /api/create-riddle-conversation`. `provider` is the
oracle answering the outbound `requests.post`, `st` the current
`active_conversations`, `uid` the optional `request.user_id`, `r` the random
draw behind `uuid.uuid4()`, and `now` the current timestamp. On HTTP 200 the
two body fields are parsed and a record is stored. On any other status the
handler raises an inner `HTTPException` 500 whose detail carries the raw
body as `details`; since this handler has no `except HTTPException: raise`
clause, that exception is re-caught by its own generic `except Exception`
clause and re-raised as a 500 whose detail is the re-wrap
`success=False, error=str(inner exception)` with no `details` key. A
transport exception is caught by the earlier
`except requests.RequestException` clause (raising from inside an except
clause escapes the try), yielding a 500 whose error wraps the exception
message. -/
def create_riddle_conversation (provider : Provider) (st : SessionMap)
    (uid : Option String) (r : Nat) (now : String) : CreateResult :=
  let user_id := resolveUserId uid r
  match provider ProviderCall.createConv with
  | Except.error e =>
      ⟨st, [ProviderCall.createConv],
        CreateOutcome.httpError 500 ⟨false, "Request failed: " ++ e, none⟩⟩
  | Except.ok response =>
      if response.status_code = 200 then
        ⟨mapInsert st user_id ⟨response.conversation_id, now⟩,
          [ProviderCall.createConv],
          CreateOutcome.ok
            ⟨true, response.conversation_id, response.conversation_url,
              some user_id, none, none⟩⟩
      else
        ⟨st, [ProviderCall.createConv],
          CreateOutcome.httpError 500
            ⟨false, strOfCreateFailException response.text, none⟩⟩

/-- Python string interpolation of the stored optional value inside the
f-string building the provider URLs: `None` renders as `"None"`. -/
def pyStr (s : Option String) : String :=
  match s with
  | none => "None"
  | some s2 => s2

/-- Handler of `POST /api/end-conversation`. An unknown (or empty, hence
falsy) `user_id` raises 404 before any outbound call. Otherwise the end and
delete calls are attempted in sequence on the stored conversation id, their
HTTP statuses ignored; only a transport exception aborts (caught by
`except Exception`, yielding a 500 with the exception message and leaving
the mapping untouched). When both calls return, the record is deleted and a
success message is returned. -/
def end_conversation (provider : Provider) (st : SessionMap)
    (user_id : String) : EndResult :=
  if user_id = "" then
    ⟨st, [], EndOutcome.httpError 404
      ⟨false, "No active conversation found for user", none⟩⟩
  else
    match mapLookup st user_id with
    | none =>
        ⟨st, [], EndOutcome.httpError 404
          ⟨false, "No active conversation found for user", none⟩⟩
    | some record =>
        let conversation_id := pyStr record.conversation_id
        match provider (ProviderCall.endConv conversation_id) with
        | Except.error e =>
            ⟨st, [ProviderCall.endConv conversation_id],
              EndOutcome.httpError 500 ⟨false, e, none⟩⟩
        | Except.ok _ =>
            match provider (ProviderCall.deleteConv conversation_id) with
            | Except.error e =>
                ⟨st, [ProviderCall.endConv conversation_id,
                    ProviderCall.deleteConv conversation_id],
                  EndOutcome.httpError 500 ⟨false, e, none⟩⟩
            | Except.ok _ =>
                ⟨mapErase st user_id,
                  [ProviderCall.endConv conversation_id,
                    ProviderCall.deleteConv conversation_id],
                  EndOutcome.ok "Conversation ended and deleted successfully"⟩

/-- Body of `GET /api/health`. -/
structure HealthResponse where
  status : String
  active_conversations : Nat
  framework : String
deriving DecidableEq

/-- Everything one call to the health endpoint produces. -/
structure HealthResult where
  state : SessionMap
  calls : List ProviderCall
  response : HealthResponse
deriving DecidableEq

/-- Handler of `GET /api/health`: reads `len(active_conversations)`, makes
no outbound call and mutates nothing. -/
def health_check (st : SessionMap) : HealthResult :=
  ⟨st, [], ⟨"healthy", st.length, "FastAPI"⟩⟩

/-- The keys of the mapping are pairwise distinct (automatic for a Python
dict; an invariant of the association-list model). -/
def KeysNodup (st : SessionMap) : Prop :=
  (st.map Prod.fst).Nodup

/-- States of `active_conversations` reachable from process start through
the HTTP handlers. -/
inductive Reachable : SessionMap → Prop where
  | init : Reachable []
  | step_create (provider : Provider) (st : SessionMap) (uid : Option String)
      (r : Nat) (now : String) : Reachable st →
      Reachable (create_riddle_conversation provider st uid r now).state
  | step_end (provider : Provider) (st : SessionMap) (uid : String) :
      Reachable st → Reachable (end_conversation provider st uid).state
  | step_health (st : SessionMap) : Reachable st →
      Reachable (health_check st).state

/-- Provider stub: every call returns HTTP 200 with the two body fields. -/
def providerStub200 : Provider :=
  fun _ => Except.ok ⟨200, some "c1", some "u1", "body"⟩

/-- Provider stub: every call returns HTTP 503. -/
def providerStub503 : Provider :=
  fun _ => Except.ok ⟨503, none, none, "service unavailable"⟩

/-- Provider stub: every call raises a transport exception. -/
def providerStubDown : Provider :=
  fun _ => Except.error "connection refused"

/-- Provider stub: end and delete return HTTP error statuses (no exception). -/
def providerStubEndErrors : Provider := fun c =>
  match c with
  | ProviderCall.createConv => Except.ok ⟨200, some "c1", some "u1", "body"⟩
  | ProviderCall.endConv _ => Except.ok ⟨500, none, none, "end failed"⟩
  | ProviderCall.deleteConv _ => Except.ok ⟨404, none, none, "not found"⟩

/-- Provider stub: the delete call raises a transport exception. -/
def providerStubDeleteDown : Provider := fun c =>
  match c with
  | ProviderCall.deleteConv _ => Except.error "connection reset"
  | _ => Except.ok ⟨200, some "c1", some "u1", "body"⟩

/-- A sample mapping holding one session record. -/
def st1 : SessionMap := [("u1", ⟨some "c1", "t0"⟩)]

theorem mapLookup_mapInsert_self (m : SessionMap) (k : String) (v : SessionRecord) :
    mapLookup (mapInsert m k v) k = some v := by
  induction m with
  | nil => simp [mapInsert, mapLookup]
  | cons hd tl ih =>
      obtain ⟨k2, v2⟩ := hd
      by_cases h : k2 = k <;> simp [mapInsert, mapLookup, h, ih]

theorem mapInsert_length_of_lookup (m : SessionMap) (k : String)
    (v w : SessionRecord) (h : mapLookup m k = some v) :
    (mapInsert m k w).length = m.length := by
  induction m with
  | nil => simp [mapLookup] at h
  | cons hd tl ih =>
      obtain ⟨k2, v2⟩ := hd
      by_cases hk : k2 = k
      · simp [mapInsert, hk]
      · simp [mapLookup, hk] at h
        simp [mapInsert, hk, ih h]

theorem mapErase_sublist (m : SessionMap) (k : String) :
    List.Sublist (mapErase m k) m := by
  induction m with
  | nil => exact List.Sublist.refl []
  | cons hd tl ih =>
      obtain ⟨k2, v2⟩ := hd
      by_cases h : k2 = k
      · simp only [mapErase, if_pos h]
        exact List.Sublist.cons _ (List.Sublist.refl tl)
      · simp only [mapErase, if_neg h]
        exact List.Sublist.cons₂ _ ih

theorem mem_keys_mapInsert (m : SessionMap) (k a : String) (v : SessionRecord)
    (h : a ∈ (mapInsert m k v).map Prod.fst) :
    a = k ∨ a ∈ m.map Prod.fst := by
  induction m with
  | nil =>
      simp only [mapInsert, List.map_cons, List.map_nil, List.mem_cons,
        List.not_mem_nil, or_false] at h
      exact Or.inl h
  | cons hd tl ih =>
      obtain ⟨k2, v2⟩ := hd
      by_cases hk : k2 = k
      · subst hk
        simp only [mapInsert, eq_self_iff_true, ite_true, List.map_cons,
          List.mem_cons] at h ⊢
        tauto
      · simp only [mapInsert, if_neg hk, List.map_cons, List.mem_cons] at h ⊢
        rcases h with h | h
        · exact Or.inr (Or.inl h)
        · rcases ih h with h2 | h2
          · exact Or.inl h2
          · exact Or.inr (Or.inr h2)

theorem keysNodup_mapInsert (m : SessionMap) (k : String) (v : SessionRecord)
    (h : KeysNodup m) : KeysNodup (mapInsert m k v) := by
  induction m with
  | nil => simp [KeysNodup, mapInsert]
  | cons hd tl ih =>
      obtain ⟨k2, v2⟩ := hd
      rw [KeysNodup, List.map_cons, List.nodup_cons] at h
      by_cases hk : k2 = k
      · subst hk
        rw [KeysNodup]
        simp only [mapInsert, eq_self_iff_true, ite_true, List.map_cons,
          List.nodup_cons]
        exact h
      · have htl : KeysNodup (mapInsert tl k v) := ih h.2
        rw [KeysNodup] at htl ⊢
        simp only [mapInsert, if_neg hk, List.map_cons, List.nodup_cons]
        refine ⟨fun hmem => ?_, htl⟩
        rcases mem_keys_mapInsert tl k k2 v hmem with h2 | h2
        · exact hk h2
        · exact h.1 h2

theorem keysNodup_mapErase (m : SessionMap) (k : String) (h : KeysNodup m) :
    KeysNodup (mapErase m k) := by
  exact List.Nodup.sublist (List.Sublist.map Prod.fst (mapErase_sublist m k)) h

theorem mapLookup_eq_none_of_not_mem (m : SessionMap) (k : String)
    (h : k ∉ m.map Prod.fst) : mapLookup m k = none := by
  induction m with
  | nil => rfl
  | cons hd tl ih =>
      obtain ⟨k2, v2⟩ := hd
      rw [List.map_cons, List.mem_cons, not_or] at h
      simp only [mapLookup]
      rw [if_neg (fun he => h.1 he.symm)]
      exact ih h.2

theorem mapLookup_mapErase_self (m : SessionMap) (k : String) (h : KeysNodup m) :
    mapLookup (mapErase m k) k = none := by
  induction m with
  | nil => rfl
  | cons hd tl ih =>
      obtain ⟨k2, v2⟩ := hd
      rw [KeysNodup, List.map_cons, List.nodup_cons] at h
      by_cases hk : k2 = k
      · simp only [mapErase, if_pos hk]
        rw [← hk]
        exact mapLookup_eq_none_of_not_mem tl k2 h.1
      · simp only [mapErase, if_neg hk, mapLookup]
        exact ih h.2

theorem toHex_length (w : Nat) : ∀ n : Nat, (toHex n w).length = w := by
  induction w with
  | zero => intro n; rfl
  | succ w ih => intro n; simp [toHex, ih]

theorem hexDigit_inj : ∀ a, a < 16 → ∀ b, b < 16 → hexDigit a = hexDigit b → a = b := by
  decide

theorem hexDigit_ne_hyphen : ∀ a, a < 16 → hexDigit a ≠ '-' := by
  decide

theorem toHex_inj (w : Nat) : ∀ n1 n2 : Nat, n1 < 16 ^ w → n2 < 16 ^ w →
    toHex n1 w = toHex n2 w → n1 = n2 := by
  induction w with
  | zero =>
      intro n1 n2 h1 h2 _
      rw [pow_zero] at h1 h2
      omega
  | succ w ih =>
      intro n1 n2 h1 h2 heq
      simp only [toHex] at heq
      have hlen : (toHex (n1 / 16) w).length = (toHex (n2 / 16) w).length := by
        rw [toHex_length, toHex_length]
      obtain ⟨hpre, hpost⟩ := List.append_inj heq hlen
      have hmod : n1 % 16 = n2 % 16 := by
        have hd : hexDigit (n1 % 16) = hexDigit (n2 % 16) := by
          simpa using hpost
        exact hexDigit_inj _ (Nat.mod_lt _ (by norm_num)) _
          (Nat.mod_lt _ (by norm_num)) hd
      have hdiv : n1 / 16 = n2 / 16 := by
        apply ih
        · exact Nat.div_lt_of_lt_mul (by rw [mul_comm, ← pow_succ]; exact h1)
        · exact Nat.div_lt_of_lt_mul (by rw [mul_comm, ← pow_succ]; exact h2)
        · exact hpre
      omega

theorem toHex_not_hyphen (w : Nat) : ∀ n : Nat, '-' ∉ toHex n w := by
  induction w with
  | zero => intro n; simp [toHex]
  | succ w ih =>
      intro n hmem
      simp only [toHex] at hmem
      rcases List.mem_append.mp hmem with h | h
      · exact ih (n / 16) h
      · rw [List.mem_singleton] at h
        exact hexDigit_ne_hyphen _ (Nat.mod_lt _ (by norm_num)) h.symm

theorem uuid4Int_lt (r : Nat) : uuid4Int r < 2 ^ 128 := by
  unfold uuid4Int
  exact Nat.mod_lt _ (by positivity)

theorem filter_uuid4_data (r : Nat) :
    (uuid4String r).data.filter (fun c => c != '-') = toHex (uuid4Int r) 32 := by
  have hs : ∀ c ∈ toHex (uuid4Int r) 32, (c != '-') = true := by
    intro c hc
    simp only [bne_iff_ne, ne_eq]
    intro he
    subst he
    exact toHex_not_hyphen 32 (uuid4Int r) hc
  have hdata : (uuid4String r).data =
      (toHex (uuid4Int r) 32).take 8 ++ '-' ::
        (((toHex (uuid4Int r) 32).drop 8).take 4 ++ '-' ::
          (((toHex (uuid4Int r) 32).drop 12).take 4 ++ '-' ::
            (((toHex (uuid4Int r) 32).drop 16).take 4 ++ '-' ::
              (toHex (uuid4Int r) 32).drop 20))) := rfl
  set s := toHex (uuid4Int r) 32 with hsdef
  have htake : List.filter (fun c => c != '-') (s.take 8) = s.take 8 :=
    List.filter_eq_self.mpr (fun a ha => hs a (List.take_subset 8 s ha))
  have hdrop : List.filter (fun c => c != '-') (s.drop 20) = s.drop 20 :=
    List.filter_eq_self.mpr (fun a ha => hs a (List.drop_subset 20 s ha))
  have hdt : ∀ i : Nat, List.filter (fun c => c != '-') ((s.drop i).take 4) =
      (s.drop i).take 4 :=
    fun i => List.filter_eq_self.mpr
      (fun a ha => hs a (List.drop_subset i s (List.take_subset 4 (s.drop i) ha)))
  rw [hdata]
  simp only [List.filter_append, List.filter_cons, bne_self_eq_false,
    Bool.false_eq_true, if_false, htake, hdrop, hdt]
  have h16 : (s.drop 16).take 4 ++ s.drop 20 = s.drop 16 := by
    have hd : (s.drop 16).drop 4 = s.drop 20 := by
      rw [List.drop_drop]
    rw [← hd, List.take_append_drop]
  have h12 : (s.drop 12).take 4 ++ s.drop 16 = s.drop 12 := by
    have hd : (s.drop 12).drop 4 = s.drop 16 := by
      rw [List.drop_drop]
    rw [← hd, List.take_append_drop]
  have h8 : (s.drop 8).take 4 ++ s.drop 12 = s.drop 8 := by
    have hd : (s.drop 8).drop 4 = s.drop 12 := by
      rw [List.drop_drop]
    rw [← hd, List.take_append_drop]
  rw [h16, h12, h8, List.take_append_drop]

theorem uuid4String_inj (r1 r2 : Nat) (h : uuid4Int r1 ≠ uuid4Int r2) :
    uuid4String r1 ≠ uuid4String r2 := by
  intro he
  apply h
  have hfilter := congrArg (fun t : String => t.data.filter (fun c => c != '-')) he
  simp only [filter_uuid4_data] at hfilter
  have hpow : (16 : Nat) ^ 32 = 2 ^ 128 := by norm_num
  exact toHex_inj 32 _ _ (hpow ▸ uuid4Int_lt r1) (hpow ▸ uuid4Int_lt r2) hfilter

theorem uuid4String_length (r : Nat) : (uuid4String r).length = 36 := by
  show ((uuid4String r).data).length = 36
  have hdata : (uuid4String r).data =
      (toHex (uuid4Int r) 32).take 8 ++ '-' ::
        (((toHex (uuid4Int r) 32).drop 8).take 4 ++ '-' ::
          (((toHex (uuid4Int r) 32).drop 12).take 4 ++ '-' ::
            (((toHex (uuid4Int r) 32).drop 16).take 4 ++ '-' ::
              (toHex (uuid4Int r) 32).drop 20))) := rfl
  rw [hdata]
  simp only [List.length_append, List.length_cons, List.length_take,
    List.length_drop, toHex_length]
  omega

theorem uuid4String_ne_empty (r : Nat) : uuid4String r ≠ "" := by
  intro h
  have hl := congrArg String.length h
  rw [uuid4String_length] at hl
  exact absurd hl (by decide)

theorem create_eq_of_ok (provider : Provider) (st : SessionMap)
    (uid : Option String) (r : Nat) (now : String) (resp : ProviderResponse)
    (hcall : provider ProviderCall.createConv = Except.ok resp)
    (hstatus : resp.status_code = 200) :
    create_riddle_conversation provider st uid r now =
      ⟨mapInsert st (resolveUserId uid r) ⟨resp.conversation_id, now⟩,
        [ProviderCall.createConv],
        CreateOutcome.ok
          ⟨true, resp.conversation_id, resp.conversation_url,
            some (resolveUserId uid r), none, none⟩⟩ := by
  unfold create_riddle_conversation
  rw [hcall]
  simp only [hstatus, if_true]

theorem create_eq_of_httpError (provider : Provider) (st : SessionMap)
    (uid : Option String) (r : Nat) (now : String) (resp : ProviderResponse)
    (hcall : provider ProviderCall.createConv = Except.ok resp)
    (hstatus : resp.status_code ≠ 200) :
    create_riddle_conversation provider st uid r now =
      ⟨st, [ProviderCall.createConv],
        CreateOutcome.httpError 500
          ⟨false, strOfCreateFailException resp.text, none⟩⟩ := by
  unfold create_riddle_conversation
  rw [hcall]
  simp only [hstatus, if_false]

theorem create_eq_of_exception (provider : Provider) (st : SessionMap)
    (uid : Option String) (r : Nat) (now : String) (e : String)
    (hcall : provider ProviderCall.createConv = Except.error e) :
    create_riddle_conversation provider st uid r now =
      ⟨st, [ProviderCall.createConv],
        CreateOutcome.httpError 500
          ⟨false, "Request failed: " ++ e, none⟩⟩ := by
  unfold create_riddle_conversation
  rw [hcall]

theorem end_eq_of_notfound (provider : Provider) (st : SessionMap)
    (user_id : String) (hmiss : mapLookup st user_id = none) :
    end_conversation provider st user_id =
      ⟨st, [], EndOutcome.httpError 404
        ⟨false, "No active conversation found for user", none⟩⟩ := by
  unfold end_conversation
  by_cases h : user_id = ""
  · rw [if_pos h]
  · rw [if_neg h, hmiss]

theorem end_eq_of_ok (provider : Provider) (st : SessionMap) (user_id : String)
    (record : SessionRecord) (e d : ProviderResponse)
    (hne : user_id ≠ "")
    (hrec : mapLookup st user_id = some record)
    (hend : provider (ProviderCall.endConv (pyStr record.conversation_id)) =
      Except.ok e)
    (hdel : provider (ProviderCall.deleteConv (pyStr record.conversation_id)) =
      Except.ok d) :
    end_conversation provider st user_id =
      ⟨mapErase st user_id,
        [ProviderCall.endConv (pyStr record.conversation_id),
          ProviderCall.deleteConv (pyStr record.conversation_id)],
        EndOutcome.ok "Conversation ended and deleted successfully"⟩ := by
  unfold end_conversation
  rw [if_neg hne, hrec]
  simp only [hend, hdel]

theorem end_eq_of_endException (provider : Provider) (st : SessionMap)
    (user_id : String) (record : SessionRecord) (e : String)
    (hne : user_id ≠ "")
    (hrec : mapLookup st user_id = some record)
    (hend : provider (ProviderCall.endConv (pyStr record.conversation_id)) =
      Except.error e) :
    end_conversation provider st user_id =
      ⟨st, [ProviderCall.endConv (pyStr record.conversation_id)],
        EndOutcome.httpError 500 ⟨false, e, none⟩⟩ := by
  unfold end_conversation
  rw [if_neg hne, hrec]
  simp only [hend]

theorem end_eq_of_deleteException (provider : Provider) (st : SessionMap)
    (user_id : String) (record : SessionRecord) (e2 : ProviderResponse)
    (e : String)
    (hne : user_id ≠ "")
    (hrec : mapLookup st user_id = some record)
    (hend : provider (ProviderCall.endConv (pyStr record.conversation_id)) =
      Except.ok e2)
    (hdel : provider (ProviderCall.deleteConv (pyStr record.conversation_id)) =
      Except.error e) :
    end_conversation provider st user_id =
      ⟨st, [ProviderCall.endConv (pyStr record.conversation_id),
          ProviderCall.deleteConv (pyStr record.conversation_id)],
        EndOutcome.httpError 500 ⟨false, e, none⟩⟩ := by
  unfold end_conversation
  rw [if_neg hne, hrec]
  simp only [hend, hdel]

theorem keysNodup_create (provider : Provider) (st : SessionMap)
    (uid : Option String) (r : Nat) (now : String) (h : KeysNodup st) :
    KeysNodup (create_riddle_conversation provider st uid r now).state := by
  unfold create_riddle_conversation
  cases hp : provider ProviderCall.createConv with
  | error e => exact h
  | ok resp =>
      by_cases h200 : resp.status_code = 200
      · simp only [h200, if_true]
        exact keysNodup_mapInsert st _ _ h
      · simp only [h200, if_false]
        exact h

theorem end_eq_of_empty (provider : Provider) (st : SessionMap) :
    end_conversation provider st "" =
      ⟨st, [], EndOutcome.httpError 404
        ⟨false, "No active conversation found for user", none⟩⟩ := by
  unfold end_conversation
  rw [if_pos rfl]

theorem keysNodup_end (provider : Provider) (st : SessionMap)
    (user_id : String) (h : KeysNodup st) :
    KeysNodup (end_conversation provider st user_id).state := by
  by_cases hne : user_id = ""
  · subst hne
    rw [end_eq_of_empty]
    exact h
  · cases hl : mapLookup st user_id with
    | none =>
        rw [end_eq_of_notfound provider st user_id hl]
        exact h
    | some record =>
        cases he : provider (ProviderCall.endConv (pyStr record.conversation_id)) with
        | error e =>
            rw [end_eq_of_endException provider st user_id record e hne hl he]
            exact h
        | ok e2 =>
            cases hd : provider
                (ProviderCall.deleteConv (pyStr record.conversation_id)) with
            | error e =>
                rw [end_eq_of_deleteException provider st user_id record e2 e
                  hne hl he hd]
                exact h
            | ok d2 =>
                rw [end_eq_of_ok provider st user_id record e2 d2 hne hl he hd]
                exact keysNodup_mapErase st user_id h

theorem reachable_keysNodup (st : SessionMap) (h : Reachable st) :
    KeysNodup st := by
  induction h with
  | init => simp [KeysNodup]
  | step_create provider st uid r now hst ih =>
      exact keysNodup_create provider st uid r now ih
  | step_end provider st uid hst ih => exact keysNodup_end provider st uid ih
  | step_health st hst ih => exact ih

theorem data_append (s t : String) : (s ++ t).data = s.data ++ t.data := by
  obtain ⟨ls⟩ := s
  obtain ⟨lt⟩ := t
  rfl

theorem request_failed_ne_wrap (e text : String) :
    "Request failed: " ++ e ≠ strOfCreateFailException text := by
  intro h
  have h1 : ("Request failed: " ++ e).data.head? = some 'R' := by
    rw [data_append]
    rfl
  have h2 : (strOfCreateFailException text).data.head? = some '5' := by
    unfold strOfCreateFailException
    rw [data_append]
    rfl
  rw [h] at h1
  rw [h1] at h2
  exact absurd h2 (by decide)

/-- C2: for every CreateSession call where the provider responds HTTP 200,
the relay parses `conversation_id` and `conversation_url` from the response
body, inserts a session record into the mapping keyed by the resolved user
id, and returns success carrying that conversation id, that conversation
url, and the user id used. -/
theorem createSession_success_stores_and_returns (provider : Provider)
    (st : SessionMap) (uid : Option String) (r : Nat) (now : String)
    (resp : ProviderResponse)
    (hcall : provider ProviderCall.createConv = Except.ok resp)
    (hstatus : resp.status_code = 200) :
    (create_riddle_conversation provider st uid r now).state =
      mapInsert st (resolveUserId uid r) ⟨resp.conversation_id, now⟩ ∧
    mapLookup (create_riddle_conversation provider st uid r now).state
      (resolveUserId uid r) = some ⟨resp.conversation_id, now⟩ ∧
    (create_riddle_conversation provider st uid r now).outcome =
      CreateOutcome.ok ⟨true, resp.conversation_id, resp.conversation_url,
        some (resolveUserId uid r), none, none⟩ := by
  rw [create_eq_of_ok provider st uid r now resp hcall hstatus]
  exact ⟨rfl, mapLookup_mapInsert_self st (resolveUserId uid r) _, rfl⟩

/-- Witness for C2 at a provider stub answering 200 with body fields
`c1` and `u1`. -/
theorem createSession_success_stores_and_returns_witness :
    (create_riddle_conversation providerStub200 [] (some "me") 0 "t").state =
      mapInsert [] (resolveUserId (some "me") 0) ⟨some "c1", "t"⟩ ∧
    mapLookup (create_riddle_conversation providerStub200 [] (some "me") 0 "t").state
      (resolveUserId (some "me") 0) = some ⟨some "c1", "t"⟩ ∧
    (create_riddle_conversation providerStub200 [] (some "me") 0 "t").outcome =
      CreateOutcome.ok ⟨true, some "c1", some "u1",
        some (resolveUserId (some "me") 0), none, none⟩ :=
  createSession_success_stores_and_returns providerStub200 [] (some "me") 0 "t"
    ⟨200, some "c1", some "u1", "body"⟩ rfl rfl

/-- C3 counterexample: with a provider stub answering 503, the create
endpoint does not return the inner detail that carries the raw body in a
`details` field; what it actually returns is the re-wrapped detail, whose
error field is the stringified inner exception and which has no `details`
field. -/
theorem createSession_non200_detail_counterexample :
    (create_riddle_conversation providerStub503 [] (some "me") 0 "t").outcome ≠
      CreateOutcome.httpError 500
        ⟨false, "Failed to create conversation", some "service unavailable"⟩ ∧
    (create_riddle_conversation providerStub503 [] (some "me") 0 "t").outcome =
      CreateOutcome.httpError 500
        ⟨false, "500: \x7b'success': False, 'error': 'Failed to create conversation', 'details': 'service unavailable'\x7d",
          none⟩ :=
  ⟨by decide, by decide⟩

/-- C3 (amended): for every CreateSession call where the provider responds
with a non-200 status, the relay returns an error result (HTTP 500) and
stores no record (the HealthCheck count is unchanged); because the inner
`HTTPException` is re-caught by the handler's own generic exception
clause, the detail the caller receives is the re-wrap whose error field is
the stringified inner exception — embedding the provider's raw response
body through Python repr — and it carries no separate `details` field. -/
theorem createSession_non200_wrapped_no_store (provider : Provider)
    (st : SessionMap) (uid : Option String) (r : Nat) (now : String)
    (resp : ProviderResponse)
    (hcall : provider ProviderCall.createConv = Except.ok resp)
    (hstatus : resp.status_code ≠ 200) :
    (create_riddle_conversation provider st uid r now).state = st ∧
    (create_riddle_conversation provider st uid r now).outcome =
      CreateOutcome.httpError 500
        ⟨false, strOfCreateFailException resp.text, none⟩ ∧
    (health_check (create_riddle_conversation provider st uid r now).state).response.active_conversations =
      (health_check st).response.active_conversations := by
  rw [create_eq_of_httpError provider st uid r now resp hcall hstatus]
  exact ⟨rfl, rfl, rfl⟩

/-- Witness for the amended C3 at a provider stub answering 503. -/
theorem createSession_non200_wrapped_no_store_witness :
    (create_riddle_conversation providerStub503 [] (some "me") 0 "t").state = [] ∧
    (create_riddle_conversation providerStub503 [] (some "me") 0 "t").outcome =
      CreateOutcome.httpError 500
        ⟨false, strOfCreateFailException "service unavailable", none⟩ ∧
    (health_check (create_riddle_conversation providerStub503 [] (some "me") 0 "t").state).response.active_conversations =
      (health_check []).response.active_conversations :=
  createSession_non200_wrapped_no_store providerStub503 [] (some "me") 0 "t"
    ⟨503, none, none, "service unavailable"⟩ rfl (by decide)

/-- C4: for every EndSession call whose user id has no record in the
mapping, the relay answers exactly with a 404 not-found error, makes no
outbound provider call, and leaves the mapping unchanged. -/
theorem endSession_unknown_user_notfound (provider : Provider)
    (st : SessionMap) (user_id : String)
    (hmiss : mapLookup st user_id = none) :
    end_conversation provider st user_id =
      ⟨st, [], EndOutcome.httpError 404
        ⟨false, "No active conversation found for user", none⟩⟩ :=
  end_eq_of_notfound provider st user_id hmiss

/-- Witness for C4: ending a session for `ghost`, unknown to a one-record
mapping, yields 404 with no calls and no state change. -/
theorem endSession_unknown_user_notfound_witness :
    end_conversation providerStub200 st1 "ghost" =
      ⟨st1, [], EndOutcome.httpError 404
        ⟨false, "No active conversation found for user", none⟩⟩ :=
  endSession_unknown_user_notfound providerStub200 st1 "ghost" (by decide)

/-- C5: HealthCheck always reports the static status string and the exact
number of session records in the mapping, issues no provider call, and does
not mutate the mapping. -/
theorem healthCheck_spec (st : SessionMap) :
    (health_check st).response.status = "healthy" ∧
    (health_check st).response.active_conversations = st.length ∧
    (health_check st).response.framework = "FastAPI" ∧
    (health_check st).calls = [] ∧
    (health_check st).state = st :=
  ⟨rfl, rfl, rfl, rfl, rfl⟩

/-- C6: a transport exception during the outbound create call yields a 500
wrapping the transport failure message, stores nothing, and that error
result differs from the provider-HTTP-error result actually produced for
every non-200 response (the re-wrapped detail, whose error string starts
with the inner status rather than with the transport prefix). -/
theorem createSession_transport_error_distinct (provider : Provider)
    (st : SessionMap) (uid : Option String) (r : Nat) (now : String)
    (e : String)
    (hcall : provider ProviderCall.createConv = Except.error e) :
    (create_riddle_conversation provider st uid r now).outcome =
      CreateOutcome.httpError 500 ⟨false, "Request failed: " ++ e, none⟩ ∧
    (create_riddle_conversation provider st uid r now).state = st ∧
    (∀ text : String,
      CreateOutcome.httpError 500 ⟨false, "Request failed: " ++ e, none⟩ ≠
      CreateOutcome.httpError 500
        ⟨false, strOfCreateFailException text, none⟩) := by
  rw [create_eq_of_exception provider st uid r now e hcall]
  refine ⟨rfl, rfl, fun text h => ?_⟩
  simp only [CreateOutcome.httpError.injEq, ErrorDetail.mk.injEq, true_and,
    and_true] at h
  exact request_failed_ne_wrap e text h

/-- Witness for C6 at a provider stub raising a connection failure. -/
theorem createSession_transport_error_distinct_witness :
    (create_riddle_conversation providerStubDown [] (some "me") 0 "t").outcome =
      CreateOutcome.httpError 500
        ⟨false, "Request failed: " ++ "connection refused", none⟩ ∧
    (create_riddle_conversation providerStubDown [] (some "me") 0 "t").state = [] ∧
    (∀ text : String,
      CreateOutcome.httpError 500
        ⟨false, "Request failed: " ++ "connection refused", none⟩ ≠
      CreateOutcome.httpError 500
        ⟨false, strOfCreateFailException text, none⟩) :=
  createSession_transport_error_distinct providerStubDown [] (some "me") 0 "t"
    "connection refused" rfl

/-- C1 counterexample: with an active record for `u1` and a provider whose
end call raises a transport exception, EndSession returns a 500 error, not
success, and the record is not removed — refuting the claim that EndSession
returns success and removes the record irrespective of the outcomes (error
statuses or failures) of the two provider calls. -/
theorem endSession_unconditional_counterexample :
    (end_conversation providerStubDown st1 "u1").outcome =
      EndOutcome.httpError 500 ⟨false, "connection refused", none⟩ ∧
    (end_conversation providerStubDown st1 "u1").state = st1 ∧
    ∀ m : String,
      (end_conversation providerStubDown st1 "u1").outcome ≠ EndOutcome.ok m := by
  have h1 : (end_conversation providerStubDown st1 "u1").outcome =
      EndOutcome.httpError 500 ⟨false, "connection refused", none⟩ := by decide
  refine ⟨h1, by decide, fun m h => ?_⟩
  rw [h1] at h
  exact EndOutcome.noConfusion h

/-- C1 (amended): for every user id with an active record, when neither
provider call raises a transport exception, EndSession issues the end call
and then the delete call, both targeted at the stored conversation id,
removes the record from the mapping, and returns success with a
confirmation message — irrespective of the HTTP statuses of the two
provider responses. (When a call does raise a transport exception, the
relay instead returns a 500 error and keeps the record.) -/
theorem endSession_cleanup_when_no_exception (provider : Provider)
    (st : SessionMap) (user_id : String) (record : SessionRecord)
    (e d : ProviderResponse)
    (hne : user_id ≠ "")
    (hrec : mapLookup st user_id = some record)
    (hend : provider (ProviderCall.endConv (pyStr record.conversation_id)) =
      Except.ok e)
    (hdel : provider (ProviderCall.deleteConv (pyStr record.conversation_id)) =
      Except.ok d) :
    (end_conversation provider st user_id).calls =
      [ProviderCall.endConv (pyStr record.conversation_id),
        ProviderCall.deleteConv (pyStr record.conversation_id)] ∧
    (end_conversation provider st user_id).state = mapErase st user_id ∧
    (end_conversation provider st user_id).outcome =
      EndOutcome.ok "Conversation ended and deleted successfully" := by
  rw [end_eq_of_ok provider st user_id record e d hne hrec hend hdel]
  exact ⟨rfl, rfl, rfl⟩

/-- Witness for the amended C1 at a provider stub whose end and delete
calls return HTTP error statuses 500 and 404: cleanup still happens. -/
theorem endSession_cleanup_when_no_exception_witness :
    (end_conversation providerStubEndErrors st1 "u1").calls =
      [ProviderCall.endConv "c1", ProviderCall.deleteConv "c1"] ∧
    (end_conversation providerStubEndErrors st1 "u1").state = mapErase st1 "u1" ∧
    (end_conversation providerStubEndErrors st1 "u1").outcome =
      EndOutcome.ok "Conversation ended and deleted successfully" :=
  endSession_cleanup_when_no_exception providerStubEndErrors st1 "u1"
    ⟨some "c1", "t0"⟩ ⟨500, none, none, "end failed"⟩
    ⟨404, none, none, "not found"⟩ (by decide) rfl rfl rfl

/-- C7: for a user id with an active record (in a well-formed mapping),
when the provider calls raise no exception, the first EndSession succeeds
and removes the record, and an immediately repeated EndSession returns the
not-found error and leaves the mapping unchanged. -/
theorem endSession_idempotent (provider : Provider) (st : SessionMap)
    (user_id : String) (record : SessionRecord) (e d : ProviderResponse)
    (hnd : KeysNodup st)
    (hne : user_id ≠ "")
    (hrec : mapLookup st user_id = some record)
    (hend : provider (ProviderCall.endConv (pyStr record.conversation_id)) =
      Except.ok e)
    (hdel : provider (ProviderCall.deleteConv (pyStr record.conversation_id)) =
      Except.ok d) :
    (end_conversation provider st user_id).outcome =
      EndOutcome.ok "Conversation ended and deleted successfully" ∧
    mapLookup (end_conversation provider st user_id).state user_id = none ∧
    end_conversation provider (end_conversation provider st user_id).state
        user_id =
      ⟨(end_conversation provider st user_id).state, [],
        EndOutcome.httpError 404
          ⟨false, "No active conversation found for user", none⟩⟩ := by
  rw [end_eq_of_ok provider st user_id record e d hne hrec hend hdel]
  have h2 : mapLookup (mapErase st user_id) user_id = none :=
    mapLookup_mapErase_self st user_id hnd
  exact ⟨rfl, h2, end_eq_of_notfound provider _ user_id h2⟩

/-- Witness for C7 on a one-record mapping with an always-200 provider. -/
theorem endSession_idempotent_witness :
    (end_conversation providerStub200 st1 "u1").outcome =
      EndOutcome.ok "Conversation ended and deleted successfully" ∧
    mapLookup (end_conversation providerStub200 st1 "u1").state "u1" = none ∧
    end_conversation providerStub200 (end_conversation providerStub200 st1 "u1").state
        "u1" =
      ⟨(end_conversation providerStub200 st1 "u1").state, [],
        EndOutcome.httpError 404
          ⟨false, "No active conversation found for user", none⟩⟩ :=
  endSession_idempotent providerStub200 st1 "u1" ⟨some "c1", "t0"⟩
    ⟨200, some "c1", some "u1", "body"⟩ ⟨200, some "c1", some "u1", "body"⟩
    (by unfold KeysNodup; decide) (by decide) rfl rfl rfl

/-- C8: every state reachable through the handlers maps each user id to at
most one session record, and a second successful CreateSession for a user
id that already has a record replaces the stored record (the old
conversation id is discarded) without changing the record count. -/
theorem sessionMap_at_most_one_record (st : SessionMap) (h : Reachable st) :
    KeysNodup st ∧
    ∀ (provider : Provider) (uid : Option String) (r : Nat) (now : String)
      (record : SessionRecord) (resp : ProviderResponse),
      mapLookup st (resolveUserId uid r) = some record →
      provider ProviderCall.createConv = Except.ok resp →
      resp.status_code = 200 →
      (create_riddle_conversation provider st uid r now).state.length =
          st.length ∧
      mapLookup (create_riddle_conversation provider st uid r now).state
        (resolveUserId uid r) = some ⟨resp.conversation_id, now⟩ := by
  refine ⟨reachable_keysNodup st h, ?_⟩
  intro provider uid r now record resp hrec hcall hstatus
  rw [create_eq_of_ok provider st uid r now resp hcall hstatus]
  exact ⟨mapInsert_length_of_lookup st _ record _ hrec,
    mapLookup_mapInsert_self st _ _⟩

/-- Witness for C8 at the reachable one-record state produced by a
successful create for `u1`. -/
theorem sessionMap_at_most_one_record_witness :
    KeysNodup st1 ∧
    ∀ (provider : Provider) (uid : Option String) (r : Nat) (now : String)
      (record : SessionRecord) (resp : ProviderResponse),
      mapLookup st1 (resolveUserId uid r) = some record →
      provider ProviderCall.createConv = Except.ok resp →
      resp.status_code = 200 →
      (create_riddle_conversation provider st1 uid r now).state.length =
          st1.length ∧
      mapLookup (create_riddle_conversation provider st1 uid r now).state
        (resolveUserId uid r) = some ⟨resp.conversation_id, now⟩ :=
  sessionMap_at_most_one_record st1
    (Reachable.step_create providerStub200 [] (some "u1") 0 "t0"
      Reachable.init)

/-- C9: for an EndSession call on an existing user id during which the end
or the delete request raises a transport exception, the relay returns a
generic 500 carrying the exception message, and the session record remains
in the unchanged mapping. -/
theorem endSession_exception_preserves_record (provider : Provider)
    (st : SessionMap) (user_id : String) (record : SessionRecord)
    (hne : user_id ≠ "")
    (hrec : mapLookup st user_id = some record) :
    (∀ e : String,
      provider (ProviderCall.endConv (pyStr record.conversation_id)) =
        Except.error e →
      end_conversation provider st user_id =
        ⟨st, [ProviderCall.endConv (pyStr record.conversation_id)],
          EndOutcome.httpError 500 ⟨false, e, none⟩⟩) ∧
    (∀ (e2 : ProviderResponse) (e : String),
      provider (ProviderCall.endConv (pyStr record.conversation_id)) =
        Except.ok e2 →
      provider (ProviderCall.deleteConv (pyStr record.conversation_id)) =
        Except.error e →
      end_conversation provider st user_id =
        ⟨st, [ProviderCall.endConv (pyStr record.conversation_id),
            ProviderCall.deleteConv (pyStr record.conversation_id)],
          EndOutcome.httpError 500 ⟨false, e, none⟩⟩) :=
  ⟨fun e he => end_eq_of_endException provider st user_id record e hne hrec he,
    fun e2 e he hd =>
      end_eq_of_deleteException provider st user_id record e2 e hne hrec he hd⟩

/-- Witness for C9 at a provider stub whose delete call raises a transport
exception. -/
theorem endSession_exception_preserves_record_witness :
    (∀ e : String,
      providerStubDeleteDown (ProviderCall.endConv "c1") = Except.error e →
      end_conversation providerStubDeleteDown st1 "u1" =
        ⟨st1, [ProviderCall.endConv "c1"],
          EndOutcome.httpError 500 ⟨false, e, none⟩⟩) ∧
    (∀ (e2 : ProviderResponse) (e : String),
      providerStubDeleteDown (ProviderCall.endConv "c1") = Except.ok e2 →
      providerStubDeleteDown (ProviderCall.deleteConv "c1") = Except.error e →
      end_conversation providerStubDeleteDown st1 "u1" =
        ⟨st1, [ProviderCall.endConv "c1", ProviderCall.deleteConv "c1"],
          EndOutcome.httpError 500 ⟨false, e, none⟩⟩) :=
  endSession_exception_preserves_record providerStubDeleteDown st1 "u1"
    ⟨some "c1", "t0"⟩ (by decide) rfl

/-- C10: with no user id supplied, the relay generates the identifier
`str(uuid.uuid4())`; the returned user id is exactly that identifier, it
is never the empty string, and distinct generator draws (distinct uuid
integers) yield distinct identifiers. -/
theorem createSession_generated_user_id_fresh (provider : Provider)
    (st : SessionMap) (r : Nat) (now : String) (resp : ProviderResponse)
    (hcall : provider ProviderCall.createConv = Except.ok resp)
    (hstatus : resp.status_code = 200) :
    (create_riddle_conversation provider st none r now).outcome =
      CreateOutcome.ok ⟨true, resp.conversation_id, resp.conversation_url,
        some (uuid4String r), none, none⟩ ∧
    uuid4String r ≠ "" ∧
    (∀ r2 : Nat, uuid4Int r ≠ uuid4Int r2 →
      uuid4String r ≠ uuid4String r2) := by
  rw [create_eq_of_ok provider st none r now resp hcall hstatus]
  exact ⟨rfl, uuid4String_ne_empty r, fun r2 h => uuid4String_inj r r2 h⟩

/-- Witness for C10 with draw 0 of the uuid generator. -/
theorem createSession_generated_user_id_fresh_witness :
    (create_riddle_conversation providerStub200 [] none 0 "t").outcome =
      CreateOutcome.ok ⟨true, some "c1", some "u1",
        some (uuid4String 0), none, none⟩ ∧
    uuid4String 0 ≠ "" ∧
    (∀ r2 : Nat, uuid4Int 0 ≠ uuid4Int r2 →
      uuid4String 0 ≠ uuid4String r2) :=
  createSession_generated_user_id_fresh providerStub200 [] 0 "t"
    ⟨200, some "c1", some "u1", "body"⟩ rfl rfl

end SimAlly
